import Mathlib

/-!
Shallow embedding of `src/Helpers/flp_database_connector.py`
(class `flp_database_connector`).

Pandas dataframes are modelled as ordered lists of named, dtype-tagged
columns of values; the pyodbc connection/cursor side effects are modelled
as an explicit trace of `Event`s; Python `raise ValueError(...)` becomes
`Except.error` carrying the structured content of the message.  The
environment (`Env`) supplies what the external store and the interactive
`input()` calls would answer: the list returned by the
INFORMATION_SCHEMA query and the literal strings typed at the two
confirmation prompts.
-/

namespace FlpDb

/-- A cell value of a dataframe column (nullable). -/
inductive Value where
  | null
  | str (s : String)
  | int (z : Int)
  | time (t : Nat)
  | bool (b : Bool)
deriving DecidableEq, Repr

/-- One dataframe column: its name, its pandas dtype rendered as a string
(`str(df[col].dtype)` in the source), and its cells. -/
structure Column where
  name : String
  dtype : String
  values : List Value
deriving DecidableEq, Repr

/-- A pandas dataframe: an ordered sequence of named columns. -/
structure Dataset where
  columns : List Column
deriving DecidableEq, Repr

/-- `df.columns.tolist()`. -/
def Dataset.colNames (df : Dataset) : List String :=
  df.columns.map Column.name

/-- `len(df)`: the row count (0 for a dataframe with no columns). -/
def Dataset.nrows (df : Dataset) : Nat :=
  match df.columns with
  | [] => 0
  | c :: _ => c.values.length

/-- The structured content of the `ValueError`s raised by the source. -/
inductive UploadError where
  /-- `table_name.split(".")` did not produce exactly two parts. -/
  | badTableName (t : String)
  /-- "Unknown schema '{schema}'. Expected one of 'pricing', 'ops', 'revenue', or 'dbo'." -/
  | unknownSchema (schema : String)
  /-- "Missing required columns for schema '{schema}': {missing}". -/
  | missingRequiredColumns (schema : String) (missing : List String)
  /-- "Column count mismatch: Excel has {n}, SQL table has {m}". -/
  | schemaMismatchCount (nExcel nSql : Nat)
  /-- "Column name mismatch:" followed by one line
  "Position {i+1}: Excel = '{e}' vs SQL = '{s}'" per mismatched index;
  carried here as the list of (i+1, excel_name, sql_name) triples. -/
  | schemaMismatchNames (report : List (Nat × String × String))
  /-- "Primary key column '{col}' not found in DataFrame." -/
  | invalidPrimaryKey (col : String)
  /-- "Table does not exist and creation was cancelled by user." -/
  | creationDeclined
deriving DecidableEq, Repr

/-- Observable effects of an operation, in order of occurrence. -/
inductive Event where
  /-- `self.connect_to_quant_db()` acquired a connection. -/
  | connect
  /-- `get_sql_columns` ran its INFORMATION_SCHEMA query. -/
  | queryColumns (table : String)
  /-- `input("Table '{t}' does not exist. Create it? (y/n): ")`. -/
  | promptCreate (table : String)
  /-- `input("Confirm overwriting all rows in '{t}'? (y/n): ")`. -/
  | promptOverwrite (table : String)
  /-- `cursor.execute(create_stmt)`. -/
  | execCreate (stmt : String)
  /-- `cursor.execute("DELETE FROM {t}")`. -/
  | execDelete (table : String)
  /-- `cursor.execute("DROP TABLE {t}")` was attempted. -/
  | execDrop (table : String)
  /-- `cursor.executemany(sql, data)`: the bulk insert. -/
  | insertRows (sql : String) (nrows : Nat)
  /-- `conn.commit()`. -/
  | commit
  /-- `cursor.close()`. -/
  | closeCursor
  /-- `conn.close()`. -/
  | closeConn
  /-- `warnings.warn(...)` for the 'dbo' escape hatch. -/
  | warnDbo
  /-- `print(f"Created new table: {t}")`. -/
  | printCreated (table : String)
  /-- `print(f"All previous data in {t} cleared...")`. -/
  | printCleared (table : String)
  /-- The final "Upload complete" print: rows uploaded and whether the
  verb was "appended to" (`mode == 'append'`). -/
  | printComplete (table : String) (nrows : Nat) (appended : Bool)
  /-- `print(f"Table {t} deleted successfully.")`. -/
  | printDeleted (table : String)
  /-- `print(f"Failed to delete table {t}: ...")`. -/
  | printDropFailed (table : String)
deriving DecidableEq, Repr

/-- The answers of the external world during one operation:
what the store returns for the column-metadata query, the literal strings
typed at the two `input()` prompts, and the capture time used for the
`update_timestamp` audit column. -/
structure Env where
  /-- Result of `get_sql_columns`: (COLUMN_NAME, DATA_TYPE) rows in
  ordinal position order; `[]` means the table does not exist. -/
  sqlColumns : List (String × String)
  /-- String typed at the "Create it? (y/n)" prompt. -/
  createAnswer : String
  /-- String typed at the "Confirm overwriting ... (y/n)" prompt. -/
  overwriteAnswer : String
  /-- `datetime.datetime.now()` at upload time. -/
  now : Nat
deriving Repr

deriving instance DecidableEq for Except

/-- Python `str.split(sep)` for a one-character separator, acting on the
character list: `"a.b" -> ["a","b"]`, `"" -> [""]`, `"a..b" -> ["a","","b"]`.
The result is never the empty list. -/
def pySplitChars (sep : Char) : List Char → List (List Char)
  | [] => [[]]
  | c :: cs =>
    match pySplitChars sep cs with
    | [] => [[]]
    | r :: rs => if c = sep then [] :: r :: rs else (c :: r) :: rs

/-- Python `str.split(sep)` for a one-character separator. -/
def pySplit (s : String) (sep : Char) : List String :=
  (pySplitChars sep s.data).map String.mk

/-- Python `str.lower()` (ASCII case folding, which covers every string
the source ever compares after lowering). -/
def pyLower (s : String) : String :=
  String.mk (s.data.map Char.toLower)

/-- Lines 133-134: `if 'update_timestamp' not in df.columns:
df['update_timestamp'] = datetime.datetime.now()`. -/
def addTimestampCol (now : Nat) (df : Dataset) : Dataset :=
  if "update_timestamp" ∈ df.colNames then df
  else ⟨df.columns ++ [⟨"update_timestamp", "datetime64[ns]",
          List.replicate df.nrows (Value.time now)⟩]⟩

/-- Lines 135-137: `if 'update_user' not in df.columns:` stamp
`self.username.split('\\')[-1]` (domain prefix stripped). -/
def addUserCol (username : String) (df : Dataset) : Dataset :=
  if "update_user" ∈ df.colNames then df
  else ⟨df.columns ++ [⟨"update_user", "object",
          List.replicate df.nrows
            (Value.str ((pySplit username '\\').getLastD username))⟩]⟩

/-- Step 1 of `upload_data_to_quant_db` (lines 132-137): add the
`update_timestamp` and `update_user` audit columns when absent. -/
def enrich (username : String) (now : Nat) (df : Dataset) : Dataset :=
  addUserCol username (addTimestampCol now df)

/-- `self.schema_standards[schema]` guarded by
`schema in ["pricing", "ops", "revenue"]` (lines 13-38 and 142-147):
the (required_columns, primary_key) pair of a governed schema. -/
def lookupStandard (schema : String) : Option (List String × List String) :=
  match schema with
  | "pricing" => some (
      ["datetime_he", "pricing_location", "wholesale_market", "market_type",
       "service", "price", "unit", "currency", "interval_width_s",
       "update_timestamp", "update_user"],
      ["datetime_he", "pricing_location", "wholesale_market", "market_type", "service"])
  | "ops" => some (
      ["datetime_he", "asset", "name", "ops_type", "service",
       "da_volume", "rt_volume", "unit", "interval_width_s",
       "update_timestamp", "update_user"],
      ["datetime_he", "asset", "name", "ops_type", "service"])
  | "revenue" => some (
      ["datetime_he", "asset", "name", "ops_type", "service",
       "da_revenue", "rt_revenue", "total_revenue", "currency",
       "interval_width_s", "update_timestamp", "update_user"],
      ["datetime_he", "asset", "name", "ops_type", "service"])
  | _ => none

/-- The `missing` local of the standards check (line 144):
`[col for col in required if col not in df.columns]`. -/
def missingColumns (required colNames : List String) : List String :=
  required.filter (fun col => decide (col ∉ colNames))

/-- Step 2 of `upload_data_to_quant_db` (lines 139-154): validate schema
and column standards; returns the `primary_key_columns` local variable
(`none` models Python `None`). -/
def standardsCheck (check_standards : Bool) (schema : String)
    (colNames : List String) :
    List Event × Except UploadError (Option (List String)) :=
  if check_standards then
    match lookupStandard schema with
    | some (required, primary_key) =>
      if (missingColumns required colNames).isEmpty then
        ([], Except.ok (some primary_key))
      else ([], Except.error (UploadError.missingRequiredColumns schema
        (missingColumns required colNames)))
    | none =>
      if schema = "dbo" then ([Event.warnDbo], Except.ok none)
      else ([], Except.error (UploadError.unknownSchema schema))
  else ([], Except.ok none)

/-- The `sql_colnames` local of `validate_columns` (line 224). -/
def sqlColnames (sql_columns : List (String × String)) : List String :=
  sql_columns.map Prod.fst

/-- The `mismatched` local of `validate_columns` (line 230): every index
at which the two name lists differ. -/
def mismatchedPositions (excel_columns sql_colnames : List String) :
    List Nat :=
  (List.range excel_columns.length).filter
    (fun i => decide (excel_columns.getD i "" ≠ sql_colnames.getD i ""))

/-- The `details` report of `validate_columns` (lines 232-233), carried
structurally: one (i+1, excel_name, sql_name) triple per line
"Position {i+1}: Excel = '{e}' vs SQL = '{s}'". -/
def mismatchReport (excel_columns sql_colnames : List String) :
    List (Nat × String × String) :=
  (mismatchedPositions excel_columns sql_colnames).map
    (fun i => (i + 1, excel_columns.getD i "", sql_colnames.getD i ""))

/-- `validate_columns` (lines 219-234): order-sensitive comparison of the
dataframe's column names against the SQL table's columns. -/
def validate_columns (excel_columns : List String)
    (sql_columns : List (String × String)) : Except UploadError Unit :=
  if excel_columns.length ≠ (sqlColnames sql_columns).length then
    Except.error (UploadError.schemaMismatchCount
      excel_columns.length (sqlColnames sql_columns).length)
  else if (mismatchedPositions excel_columns (sqlColnames sql_columns)).isEmpty
    then Except.ok ()
  else Except.error (UploadError.schemaMismatchNames
    (mismatchReport excel_columns (sqlColnames sql_columns)))

/-- The fixed pandas-dtype → SQL-type mapping of
`create_table_from_dataframe` (lines 237-243), with its
`dtype_mapping.get(dtype, "NVARCHAR(100)")` fallback. -/
def dtypeMapping (dtype : String) : String :=
  match dtype with
  | "object" => "NVARCHAR(100)"
  | "int64" => "BIGINT"
  | "float64" => "FLOAT"
  | "datetime64[ns]" => "DATETIME"
  | "bool" => "BIT"
  | _ => "NVARCHAR(100)"

/-- The `columns_sql` list of `create_table_from_dataframe`
(lines 246-250): one "[name] TYPE" fragment per dataframe column. -/
def columnsSql (df : Dataset) : List String :=
  df.columns.map (fun c => "[" ++ c.name ++ "] " ++ dtypeMapping c.dtype)

/-- Truthiness of the Python `primary_key_columns` argument
(`if primary_key_columns:`): `None` and `[]` are falsy. -/
def pkTruthy : Option (List String) → Bool
  | none => false
  | some pk => !pk.isEmpty

/-- The `pk_clause` string built at line 257. -/
def pkClause (pk : List String) : String :=
  ", PRIMARY KEY (" ++
    String.intercalate ", " (pk.map (fun col => "[" ++ col ++ "]")) ++ ")"

/-- The first primary-key column that is not among the dataframe's
columns (the loop of lines 254-256 raises at the first one). -/
def pkMissing (df : Dataset) (pk : List String) : Option String :=
  pk.find? (fun col => decide (col ∉ df.colNames))

/-- The full `create_stmt` string of line 262, given the already-built
`pk_clause` fragment (empty when no primary key applies). -/
def createStmt (table_name : String) (df : Dataset)
    (pk_clause : String) : String :=
  "CREATE TABLE " ++ table_name ++ " (" ++
    String.intercalate ", " (columnsSql df) ++ pk_clause ++ ")"

/-- `create_table_from_dataframe` (lines 236-264): validate the primary
key, build the CREATE statement, execute it. -/
def create_table_from_dataframe (table_name : String) (df : Dataset)
    (primary_key_columns : Option (List String)) :
    List Event × Except UploadError Unit :=
  if pkTruthy primary_key_columns then
    match pkMissing df (primary_key_columns.getD []) with
    | some col => ([], Except.error (UploadError.invalidPrimaryKey col))
    | none =>
      ([Event.execCreate (createStmt table_name df
          (pkClause (primary_key_columns.getD []))),
        Event.printCreated table_name], Except.ok ())
  else
    ([Event.execCreate (createStmt table_name df ""),
      Event.printCreated table_name], Except.ok ())

/-- Step 4 of `upload_data_to_quant_db` (lines 160-168): when the
INFORMATION_SCHEMA query returned no columns the table does not exist,
so create it (forced by `mode=="create"` or `skip_prompt`, otherwise
confirmed at the prompt); when it exists, validate the columns.
Python's `or` short-circuits, so `input()` is consulted only when both
`mode=="create"` and `skip_prompt` are false. -/
def existenceBranch (env : Env) (table_name : String) (df : Dataset)
    (mode : String) (skip_prompt : Bool)
    (primary_key_columns : Option (List String)) :
    List Event × Except UploadError Unit :=
  if env.sqlColumns.length < 1 then
    if (mode == "create") || skip_prompt then
      create_table_from_dataframe table_name df primary_key_columns
    else if pyLower env.createAnswer == "y" then
      (Event.promptCreate table_name ::
        (create_table_from_dataframe table_name df primary_key_columns).1,
       (create_table_from_dataframe table_name df primary_key_columns).2)
    else
      ([Event.promptCreate table_name],
       Except.error UploadError.creationDeclined)
  else
    ([], validate_columns df.colNames env.sqlColumns)

/-- Step 5 of `upload_data_to_quant_db` (lines 170-174): clear the table
when the lower-cased mode is "overwrite" and either `skip_prompt` is set
or the prompt is answered with (a case variant of) "y"; the prompt is
consulted only when `skip_prompt` is false. -/
def clearStep (env : Env) (table_name : String) (mode : String)
    (skip_prompt : Bool) : List Event :=
  if pyLower mode == "overwrite" then
    if skip_prompt then
      [Event.execDelete table_name, Event.printCleared table_name,
       Event.commit]
    else if pyLower env.overwriteAnswer == "y" then
      [Event.promptOverwrite table_name, Event.execDelete table_name,
       Event.printCleared table_name, Event.commit]
    else
      [Event.promptOverwrite table_name]
  else []

/-- Step 6 of `upload_data_to_quant_db` (lines 176-187): the bulk insert,
commit, resource close and final print. -/
def insertStep (table_name : String) (df : Dataset) (mode : String) :
    List Event :=
  let placeholders :=
    String.intercalate ", " (List.replicate df.columns.length "?")
  let colnames := String.intercalate ", " df.colNames
  let sql := "INSERT INTO " ++ table_name ++ " (" ++ colnames ++
    ") VALUES (" ++ placeholders ++ ")"
  [Event.insertRows sql df.nrows, Event.commit, Event.closeCursor,
   Event.closeConn,
   Event.printComplete table_name df.nrows (mode == "append")]

/-- Steps 3-6 of `upload_data_to_quant_db` (lines 156-187): connect,
query the existing columns, take the create-or-validate branch, clear if
requested, insert.  The source has no try/finally around the connection
acquired in Step 3: on the exception paths of Step 4 the function
returns without reaching `conn.close()` (line 186). -/
def uploadSteps3to6 (env : Env) (table_name : String) (df : Dataset)
    (mode : String) (skip_prompt : Bool)
    (primary_key_columns : Option (List String)) :
    List Event × Except UploadError Unit :=
  match existenceBranch env table_name df mode skip_prompt
      primary_key_columns with
  | (ev4, Except.error e) =>
    (Event.connect :: Event.queryColumns table_name :: ev4, Except.error e)
  | (ev4, Except.ok _) =>
    (Event.connect :: Event.queryColumns table_name ::
      (ev4 ++ clearStep env table_name mode skip_prompt ++
        insertStep table_name df mode), Except.ok ())

/-- `upload_data_to_quant_db` (lines 113-187).  Returns the trace of
observable effects that happened before the function returned or raised,
paired with its outcome. -/
def upload_data_to_quant_db (username : String) (env : Env)
    (table_name : String) (df0 : Dataset) (mode : String)
    (skip_prompt : Bool) (check_standards : Bool) :
    List Event × Except UploadError Unit :=
  match pySplit table_name '.' with
  | [schema, _table] =>
    match standardsCheck check_standards schema
        (enrich username env.now df0).colNames with
    | (ev2, Except.error e) => (ev2, Except.error e)
    | (ev2, Except.ok primary_key_columns) =>
      ((ev2 ++ (uploadSteps3to6 env table_name (enrich username env.now df0)
          mode skip_prompt primary_key_columns).1),
       (uploadSteps3to6 env table_name (enrich username env.now df0)
          mode skip_prompt primary_key_columns).2)
  | _ => ([], Except.error (UploadError.badTableName table_name))

/-- Whether the `DROP TABLE` statement of `delete_table_from_quant_db`
succeeds in the store (the `try` body completes) or raises. -/
structure DropEnv where
  dropSucceeds : Bool
deriving Repr

/-- `delete_table_from_quant_db` (lines 189-200): best-effort drop;
the `except` clause downgrades a failure to a print, and the `finally`
clause closes cursor and connection on both paths.  The operation never
raises to the caller. -/
def delete_table_from_quant_db (env : DropEnv) (table_name : String) :
    List Event × Except UploadError Unit :=
  ([Event.connect, Event.execDrop table_name] ++
    (if env.dropSucceeds then
      [Event.commit, Event.printDeleted table_name]
     else [Event.printDropFailed table_name]) ++
    [Event.closeCursor, Event.closeConn],
   Except.ok ())

/-! ### Helper lemmas about the embedding -/

lemma closeConn_mem_insertStep (tn : String) (df : Dataset) (mode : String) :
    Event.closeConn ∈ insertStep tn df mode := by
  simp [insertStep]

lemma insertRows_mem_insertStep (tn : String) (df : Dataset) (mode : String) :
    ∃ s n, Event.insertRows s n ∈ insertStep tn df mode := by
  refine ⟨"INSERT INTO " ++ tn ++ " (" ++
    String.intercalate ", " df.colNames ++ ") VALUES (" ++
    String.intercalate ", " (List.replicate df.columns.length "?") ++ ")",
    df.nrows, ?_⟩
  simp [insertStep]

/-- Every event emitted by the standards check is the 'dbo' warning. -/
lemma standardsCheck_events (cs : Bool) (schema : String)
    (cols : List String) :
    ∀ ev ∈ (standardsCheck cs schema cols).1, ev = Event.warnDbo := by
  intro ev hev
  unfold standardsCheck at hev
  split at hev
  · split at hev
    · split at hev <;> simp_all
    · split at hev <;> simp_all
  · simp_all

/-- `create_table_from_dataframe` either rejects a primary-key column
with an empty trace, or executes exactly one CREATE statement. -/
lemma create_cases (tn : String) (df : Dataset)
    (pkc : Option (List String)) :
    (∃ col, create_table_from_dataframe tn df pkc =
      ([], Except.error (UploadError.invalidPrimaryKey col))) ∨
    (∃ stmt, create_table_from_dataframe tn df pkc =
      ([Event.execCreate stmt, Event.printCreated tn], Except.ok ())) := by
  unfold create_table_from_dataframe
  split
  · rcases hf : pkMissing df (pkc.getD []) with _ | col
    · right
      exact ⟨createStmt tn df (pkClause (pkc.getD [])), by simp [hf]⟩
    · left; exact ⟨col, by simp [hf]⟩
  · right; exact ⟨createStmt tn df "", rfl⟩

/-- The four possible (trace, outcome) shapes of the existence branch. -/
lemma existenceBranch_cases (env : Env) (tn : String) (df : Dataset)
    (mode : String) (sp : Bool) (pkc : Option (List String)) :
    (∃ res, existenceBranch env tn df mode sp pkc = ([], res)) ∨
    (∃ res, existenceBranch env tn df mode sp pkc =
      ([Event.promptCreate tn], res)) ∨
    (∃ stmt, existenceBranch env tn df mode sp pkc =
      ([Event.execCreate stmt, Event.printCreated tn], Except.ok ())) ∨
    (∃ stmt, existenceBranch env tn df mode sp pkc =
      ([Event.promptCreate tn, Event.execCreate stmt,
        Event.printCreated tn], Except.ok ())) := by
  unfold existenceBranch
  split
  · split
    · rcases create_cases tn df pkc with ⟨col, hc⟩ | ⟨stmt, hc⟩
      · left; exact ⟨_, by rw [hc]⟩
      · right; right; left; exact ⟨stmt, by rw [hc]⟩
    · split
      · rcases create_cases tn df pkc with ⟨col, hc⟩ | ⟨stmt, hc⟩
        · right; left; exact ⟨_, by rw [hc]⟩
        · right; right; right; exact ⟨stmt, by rw [hc]⟩
      · right; left; exact ⟨_, rfl⟩
  · left; exact ⟨_, rfl⟩

/-- On an error outcome of steps 3-6, the only events that happened are
the connect, the metadata query and possibly the creation prompt: in
particular no insert, no delete, and no `conn.close()`. -/
lemma steps3to6_error_events (env : Env) (tn : String) (df : Dataset)
    (mode : String) (sp : Bool) (pkc : Option (List String))
    (e : UploadError)
    (h : (uploadSteps3to6 env tn df mode sp pkc).2 = Except.error e) :
    ∀ ev ∈ (uploadSteps3to6 env tn df mode sp pkc).1,
      ev = Event.connect ∨ ev = Event.queryColumns tn ∨
      ev = Event.promptCreate tn := by
  intro ev hev
  rcases existenceBranch_cases env tn df mode sp pkc with
    ⟨res, hEB⟩ | ⟨res, hEB⟩ | ⟨stmt, hEB⟩ | ⟨stmt, hEB⟩
  · cases res with
    | error e2 => simp [uploadSteps3to6, hEB] at hev; tauto
    | ok u => simp [uploadSteps3to6, hEB] at h
  · cases res with
    | error e2 => simp [uploadSteps3to6, hEB] at hev; tauto
    | ok u => simp [uploadSteps3to6, hEB] at h
  · simp [uploadSteps3to6, hEB] at h
  · simp [uploadSteps3to6, hEB] at h

/-- A successful run of steps 3-6 reaches `conn.close()`. -/
lemma steps3to6_ok_closeConn (env : Env) (tn : String) (df : Dataset)
    (mode : String) (sp : Bool) (pkc : Option (List String))
    (h : (uploadSteps3to6 env tn df mode sp pkc).2 = Except.ok ()) :
    Event.closeConn ∈ (uploadSteps3to6 env tn df mode sp pkc).1 := by
  rcases existenceBranch_cases env tn df mode sp pkc with
    ⟨res, hEB⟩ | ⟨res, hEB⟩ | ⟨stmt, hEB⟩ | ⟨stmt, hEB⟩
  · cases res with
    | error e2 => simp [uploadSteps3to6, hEB] at h
    | ok u => simp [uploadSteps3to6, hEB, insertStep]
  · cases res with
    | error e2 => simp [uploadSteps3to6, hEB] at h
    | ok u => simp [uploadSteps3to6, hEB, insertStep]
  · simp [uploadSteps3to6, hEB, insertStep]
  · simp [uploadSteps3to6, hEB, insertStep]

/-- On an error outcome of the upload, every event of the trace is the
'dbo' warning, the connect, the metadata query, or the creation prompt:
no insert, no delete, no create, no `conn.close()`. -/
lemma upload_error_events (username : String) (env : Env) (tn : String)
    (df0 : Dataset) (mode : String) (sp cs : Bool) (e : UploadError)
    (h : (upload_data_to_quant_db username env tn df0 mode sp cs).2 =
      Except.error e) :
    ∀ ev ∈ (upload_data_to_quant_db username env tn df0 mode sp cs).1,
      ev = Event.warnDbo ∨ ev = Event.connect ∨
      ev = Event.queryColumns tn ∨ ev = Event.promptCreate tn := by
  intro ev hev
  rcases hsp : pySplit tn '.' with _ | ⟨a, _ | ⟨b, _ | ⟨c, rest⟩⟩⟩
  · simp [upload_data_to_quant_db, hsp] at hev
  · simp [upload_data_to_quant_db, hsp] at hev
  · rcases hst : standardsCheck cs a (enrich username env.now df0).colNames
      with ⟨ev2, res2⟩
    cases res2 with
    | error e2 =>
      simp only [upload_data_to_quant_db, hsp] at hev
      rw [hst] at hev
      simp at hev
      exact Or.inl (standardsCheck_events cs a
        (enrich username env.now df0).colNames ev (by rw [hst]; exact hev))
    | ok pkc =>
      simp only [upload_data_to_quant_db, hsp] at h hev
      rw [hst] at h hev
      simp [List.mem_append] at h hev
      rcases hev with hev | hev
      · exact Or.inl (standardsCheck_events cs a
          (enrich username env.now df0).colNames ev (by rw [hst]; exact hev))
      · rcases steps3to6_error_events env tn
            (enrich username env.now df0) mode sp pkc e h ev hev with
          h1 | h1 | h1 <;> simp [h1]
  · simp [upload_data_to_quant_db, hsp] at hev

/-- A successful upload reaches `conn.close()`. -/
lemma upload_ok_closeConn (username : String) (env : Env) (tn : String)
    (df0 : Dataset) (mode : String) (sp cs : Bool)
    (h : (upload_data_to_quant_db username env tn df0 mode sp cs).2 =
      Except.ok ()) :
    Event.closeConn ∈
      (upload_data_to_quant_db username env tn df0 mode sp cs).1 := by
  rcases hsp : pySplit tn '.' with _ | ⟨a, _ | ⟨b, _ | ⟨c, rest⟩⟩⟩
  · simp [upload_data_to_quant_db, hsp] at h
  · simp [upload_data_to_quant_db, hsp] at h
  · rcases hst : standardsCheck cs a (enrich username env.now df0).colNames
      with ⟨ev2, res2⟩
    cases res2 with
    | error e2 =>
      simp only [upload_data_to_quant_db, hsp] at h
      rw [hst] at h
      simp at h
    | ok pkc =>
      simp only [upload_data_to_quant_db, hsp] at h ⊢
      rw [hst] at h ⊢
      simp [List.mem_append] at h ⊢
      exact Or.inr (steps3to6_ok_closeConn env tn
        (enrich username env.now df0) mode sp pkc h)
  · simp [upload_data_to_quant_db, hsp] at h

lemma addTimestampCol_hasTimestamp (n : Nat) (df : Dataset) :
    "update_timestamp" ∈ (addTimestampCol n df).colNames := by
  unfold addTimestampCol
  by_cases h : "update_timestamp" ∈ df.colNames
  · rw [if_pos h]; exact h
  · rw [if_neg h]; simp [Dataset.colNames]

lemma addUserCol_mem (u : String) (df : Dataset) (s : String)
    (h : s ∈ df.colNames) : s ∈ (addUserCol u df).colNames := by
  unfold addUserCol
  by_cases h2 : "update_user" ∈ df.colNames
  · rw [if_pos h2]; exact h
  · rw [if_neg h2]
    simp only [Dataset.colNames, List.map_append, List.map_cons,
      List.map_nil, List.mem_append] at h ⊢
    exact Or.inl h

/-- An enriched dataframe always carries the `update_timestamp` column. -/
lemma enrich_hasTimestamp (u : String) (n : Nat) (df : Dataset) :
    "update_timestamp" ∈ (enrich u n df).colNames :=
  addUserCol_mem u _ _ (addTimestampCol_hasTimestamp n df)

/-- When the two name lists agree pointwise and in length,
`validate_columns` succeeds. -/
lemma validate_columns_ok (excel : List String)
    (sql : List (String × String))
    (hlen : excel.length = sql.length)
    (hmatch : ∀ i, i < excel.length →
      excel.getD i "" = (sqlColnames sql).getD i "") :
    validate_columns excel sql = Except.ok () := by
  have hlen2 : excel.length = (sqlColnames sql).length := by
    simp [sqlColnames, hlen]
  have hnil : mismatchedPositions excel (sqlColnames sql) = [] := by
    unfold mismatchedPositions
    rw [List.filter_eq_nil_iff]
    intro i hi
    rw [List.mem_range] at hi
    simp only [decide_eq_true_eq]
    exact not_not_intro (hmatch i hi)
  unfold validate_columns
  rw [if_neg (by simp [hlen2]), if_pos (by simp [hnil])]

/-- Unfolding of the upload when the table name splits in two and the
standards check passes. -/
lemma upload_eq_of_standards_ok (username : String) (env : Env)
    (tn schema t : String) (df0 : Dataset) (mode : String) (sp cs : Bool)
    (ev2 : List Event) (pkc : Option (List String))
    (hsp : pySplit tn '.' = [schema, t])
    (hst : standardsCheck cs schema (enrich username env.now df0).colNames
      = (ev2, Except.ok pkc)) :
    upload_data_to_quant_db username env tn df0 mode sp cs =
      (ev2 ++ (uploadSteps3to6 env tn (enrich username env.now df0)
          mode sp pkc).1,
       (uploadSteps3to6 env tn (enrich username env.now df0)
          mode sp pkc).2) := by
  simp [upload_data_to_quant_db, hsp, hst]

/-- Unfolding of the upload when the table name splits in two and the
standards check fails. -/
lemma upload_eq_of_standards_error (username : String) (env : Env)
    (tn schema t : String) (df0 : Dataset) (mode : String) (sp cs : Bool)
    (ev2 : List Event) (e : UploadError)
    (hsp : pySplit tn '.' = [schema, t])
    (hst : standardsCheck cs schema (enrich username env.now df0).colNames
      = (ev2, Except.error e)) :
    upload_data_to_quant_db username env tn df0 mode sp cs =
      (ev2, Except.error e) := by
  simp [upload_data_to_quant_db, hsp, hst]

/-- Every event of the clear step is the overwrite prompt, the DELETE,
its print, or the commit. -/
lemma clearStep_events (env : Env) (tn mode : String) (sp : Bool) :
    ∀ ev ∈ clearStep env tn mode sp,
      ev = Event.promptOverwrite tn ∨ ev = Event.execDelete tn ∨
      ev = Event.printCleared tn ∨ ev = Event.commit := by
  intro ev h
  unfold clearStep at h
  split at h
  · split at h
    · simp at h; tauto
    · split at h <;> (simp at h; tauto)
  · simp at h

/-- Every event of the insert step is the bulk insert, the commit, a
close, or the final print. -/
lemma insertStep_events (tn : String) (df : Dataset) (mode : String) :
    ∀ ev ∈ insertStep tn df mode,
      (∃ s n, ev = Event.insertRows s n) ∨ ev = Event.commit ∨
      ev = Event.closeCursor ∨ ev = Event.closeConn ∨
      (∃ n b, ev = Event.printComplete tn n b) := by
  intro ev h
  simp [insertStep] at h
  rcases h with h | h | h | h | h
  · exact Or.inl ⟨_, _, h⟩
  · tauto
  · tauto
  · tauto
  · exact Or.inr (Or.inr (Or.inr (Or.inr ⟨_, _, h⟩)))

/-- Unfolded form of an upload that reaches the validate branch and
passes it: the trace is the standards events, the connect, the metadata
query, the clear step and the insert step, and the outcome is success. -/
lemma upload_validate_ok_eq (username : String) (env : Env)
    (tn schema t : String) (df0 : Dataset) (mode : String) (sp cs : Bool)
    (ev2 : List Event) (pkc : Option (List String))
    (hsp : pySplit tn '.' = [schema, t])
    (hst : standardsCheck cs schema (enrich username env.now df0).colNames
      = (ev2, Except.ok pkc))
    (hlen : (enrich username env.now df0).colNames.length =
      env.sqlColumns.length)
    (hmatch : ∀ i, i < (enrich username env.now df0).colNames.length →
      (enrich username env.now df0).colNames.getD i "" =
        (sqlColnames env.sqlColumns).getD i "") :
    upload_data_to_quant_db username env tn df0 mode sp cs =
      (ev2 ++ Event.connect :: Event.queryColumns tn ::
        (clearStep env tn mode sp ++
          insertStep tn (enrich username env.now df0) mode),
       Except.ok ()) := by
  have hval := validate_columns_ok _ _ hlen hmatch
  have hpos : ¬ (env.sqlColumns.length < 1) := by
    have h0 : (enrich username env.now df0).colNames ≠ [] :=
      List.ne_nil_of_mem (enrich_hasTimestamp username env.now df0)
    have h1 : 0 < (enrich username env.now df0).colNames.length :=
      List.length_pos.mpr h0
    omega
  have hEB : existenceBranch env tn (enrich username env.now df0) mode sp
      pkc = ([], Except.ok ()) := by
    unfold existenceBranch
    rw [if_neg hpos, hval]
  have hsteps : uploadSteps3to6 env tn (enrich username env.now df0) mode
      sp pkc =
      (Event.connect :: Event.queryColumns tn ::
        (clearStep env tn mode sp ++
          insertStep tn (enrich username env.now df0) mode),
       Except.ok ()) := by
    simp [uploadSteps3to6, hEB]
  rw [upload_eq_of_standards_ok username env tn schema t df0 mode sp cs
    ev2 pkc hsp hst, hsteps]

/-- With `primary_key_columns = None`, any CREATE the existence branch
executes is the one without a primary-key clause. -/
lemma existenceBranch_execCreate_none (env : Env) (tn : String)
    (df : Dataset) (mode : String) (sp : Bool) (s : String)
    (h : Event.execCreate s ∈ (existenceBranch env tn df mode sp none).1) :
    s = createStmt tn df "" := by
  have hcr : create_table_from_dataframe tn df none =
      ([Event.execCreate (createStmt tn df ""), Event.printCreated tn],
       Except.ok ()) := by
    simp [create_table_from_dataframe, pkTruthy]
  unfold existenceBranch at h
  split at h
  · split at h
    · rw [hcr] at h; simp at h; exact h
    · split at h
      · rw [hcr] at h; simp at h; exact h
      · simp at h
  · simp at h

/-- A CREATE in the trace of steps 3-6 comes from the existence branch. -/
lemma steps3to6_execCreate_mem (env : Env) (tn : String) (df : Dataset)
    (mode : String) (sp : Bool) (pkc : Option (List String)) (s : String)
    (h : Event.execCreate s ∈ (uploadSteps3to6 env tn df mode sp pkc).1) :
    Event.execCreate s ∈ (existenceBranch env tn df mode sp pkc).1 := by
  rcases hEB : existenceBranch env tn df mode sp pkc with ⟨ev4, res⟩
  cases res with
  | error e =>
    simp only [uploadSteps3to6] at h
    rw [hEB] at h
    simp only [List.mem_cons] at h
    rcases h with h | h | h
    · simp at h
    · simp at h
    · exact h
  | ok u =>
    simp only [uploadSteps3to6] at h
    rw [hEB] at h
    simp only [List.mem_cons, List.mem_append] at h
    rcases h with h | h | (h | h) | h
    · simp at h
    · simp at h
    · exact h
    · rcases clearStep_events env tn mode sp _ h with h1 | h1 | h1 | h1 <;>
        simp at h1
    · rcases insertStep_events tn df mode _ h with
        ⟨a, b, h1⟩ | h1 | h1 | h1 | ⟨a, b, h1⟩ <;> simp at h1

/-! ### Concrete example data used by the witnesses -/

/-- A small already-enriched example dataframe. -/
def dfExample : Dataset :=
  ⟨[⟨"a", "int64", [Value.int 1, Value.int 2]⟩,
    ⟨"update_timestamp", "datetime64[ns]", [Value.time 5, Value.time 5]⟩,
    ⟨"update_user", "object", [Value.str "u", Value.str "u"]⟩]⟩

/-- An environment in which `dbo.t` exists with columns matching
`dfExample` and both prompts would be declined. -/
def envExample : Env :=
  ⟨[("a", "bigint"), ("update_timestamp", "datetime"),
    ("update_user", "nvarchar")], "n", "n", 7⟩

/-- An environment in which the target table does not exist and both
prompts would be declined. -/
def envAbsent : Env := ⟨[], "n", "n", 7⟩

/-- An environment in which the target table does not exist and the
creation prompt would be affirmed. -/
def envCreateYes : Env := ⟨[], "y", "n", 7⟩

/-- A pricing dataset containing every required column of the "pricing"
schema except "currency" (the spec's scenario). -/
def dfPricingNoCurrency : Dataset :=
  ⟨[⟨"datetime_he", "int64", []⟩, ⟨"pricing_location", "object", []⟩,
    ⟨"wholesale_market", "object", []⟩, ⟨"market_type", "object", []⟩,
    ⟨"service", "object", []⟩, ⟨"price", "float64", []⟩,
    ⟨"unit", "object", []⟩, ⟨"interval_width_s", "int64", []⟩,
    ⟨"update_timestamp", "datetime64[ns]", []⟩,
    ⟨"update_user", "object", []⟩]⟩

/-! ### The claims -/

/-- Claim C6: metadata enrichment is idempotent for the audit columns: a
dataset that already contains an `update_timestamp` column and an
`update_user` column is returned entirely unchanged by the enrichment
step. -/
theorem C6_enrich_idempotent (username : String) (now : Nat) (df : Dataset)
    (h1 : "update_timestamp" ∈ df.colNames)
    (h2 : "update_user" ∈ df.colNames) :
    enrich username now df = df := by
  unfold enrich addUserCol addTimestampCol
  rw [if_pos h1, if_pos h2]

theorem C6_witness : enrich "DOMAIN\\alice" 7 dfExample = dfExample :=
  C6_enrich_idempotent "DOMAIN\\alice" 7 dfExample (by decide) (by decide)

/-- Claim C2: for name lists of equal length with at least one positional
mismatch, `validate_columns` fails with a SchemaMismatch whose report
contains every mismatched index together with the incoming (Excel) and
existing (SQL) name at that index, not only the first mismatch. -/
theorem C2_validate_reports_every_mismatch (excel : List String)
    (sql : List (String × String))
    (hlen : excel.length = sql.length)
    (i0 : Nat) (hi0 : i0 < excel.length)
    (hne0 : excel.getD i0 "" ≠ (sqlColnames sql).getD i0 "") :
    validate_columns excel sql = Except.error
      (UploadError.schemaMismatchNames
        (mismatchReport excel (sqlColnames sql))) ∧
    ∀ i, i < excel.length →
      excel.getD i "" ≠ (sqlColnames sql).getD i "" →
      (i + 1, excel.getD i "", (sqlColnames sql).getD i "") ∈
        mismatchReport excel (sqlColnames sql) := by
  have hlen2 : excel.length = (sqlColnames sql).length := by
    simp [sqlColnames, hlen]
  have hmem : ∀ i, i < excel.length →
      excel.getD i "" ≠ (sqlColnames sql).getD i "" →
      i ∈ mismatchedPositions excel (sqlColnames sql) := by
    intro i hi hne
    unfold mismatchedPositions
    rw [List.mem_filter, List.mem_range]
    exact ⟨hi, by simpa using hne⟩
  have hfalse :
      (mismatchedPositions excel (sqlColnames sql)).isEmpty = false := by
    rcases hls : mismatchedPositions excel (sqlColnames sql) with _ | ⟨x, xs⟩
    · exact absurd (hmem i0 hi0 hne0) (by rw [hls]; simp)
    · simp
  constructor
  · unfold validate_columns
    rw [if_neg (by simp [hlen2]), if_neg (by simp [hfalse])]
  · intro i hi hne
    unfold mismatchReport
    exact List.mem_map.mpr ⟨i, hmem i hi hne, rfl⟩

theorem C2_witness :
    validate_columns ["a", "b", "c"] [("a", "t"), ("x", "t"), ("y", "t")] =
      Except.error (UploadError.schemaMismatchNames
        (mismatchReport ["a", "b", "c"]
          (sqlColnames [("a", "t"), ("x", "t"), ("y", "t")]))) ∧
    ∀ i, i < (["a", "b", "c"] : List String).length →
      (["a", "b", "c"] : List String).getD i "" ≠
        (sqlColnames [("a", "t"), ("x", "t"), ("y", "t")]).getD i "" →
      (i + 1, (["a", "b", "c"] : List String).getD i "",
        (sqlColnames [("a", "t"), ("x", "t"), ("y", "t")]).getD i "") ∈
        mismatchReport ["a", "b", "c"]
          (sqlColnames [("a", "t"), ("x", "t"), ("y", "t")]) :=
  C2_validate_reports_every_mismatch ["a", "b", "c"]
    [("a", "t"), ("x", "t"), ("y", "t")] (by decide) 1 (by decide)
    (by decide)

/-- Claim C1: when the enriched dataset's column names equal the existing
table's column names at every position (equal counts included),
`validate_columns` succeeds and the upload raises no error and proceeds
to the bulk insert. -/
theorem C1_matching_columns_proceed (username : String) (env : Env)
    (tn schema t : String) (df0 : Dataset) (mode : String) (sp cs : Bool)
    (ev2 : List Event) (pkc : Option (List String))
    (hsp : pySplit tn '.' = [schema, t])
    (hst : standardsCheck cs schema (enrich username env.now df0).colNames
      = (ev2, Except.ok pkc))
    (hlen : (enrich username env.now df0).colNames.length =
      env.sqlColumns.length)
    (hmatch : ∀ i, i < (enrich username env.now df0).colNames.length →
      (enrich username env.now df0).colNames.getD i "" =
        (sqlColnames env.sqlColumns).getD i "") :
    validate_columns (enrich username env.now df0).colNames env.sqlColumns
      = Except.ok () ∧
    (upload_data_to_quant_db username env tn df0 mode sp cs).2 =
      Except.ok () ∧
    ∃ s n, Event.insertRows s n ∈
      (upload_data_to_quant_db username env tn df0 mode sp cs).1 := by
  have hval : validate_columns (enrich username env.now df0).colNames
      env.sqlColumns = Except.ok () :=
    validate_columns_ok _ _ hlen hmatch
  have hpos : ¬ (env.sqlColumns.length < 1) := by
    have h0 : (enrich username env.now df0).colNames ≠ [] :=
      List.ne_nil_of_mem (enrich_hasTimestamp username env.now df0)
    have h1 : 0 < (enrich username env.now df0).colNames.length :=
      List.length_pos.mpr h0
    omega
  have hEB : existenceBranch env tn (enrich username env.now df0) mode sp
      pkc = ([], Except.ok ()) := by
    unfold existenceBranch
    rw [if_neg hpos, hval]
  have hsteps : uploadSteps3to6 env tn (enrich username env.now df0) mode
      sp pkc =
      (Event.connect :: Event.queryColumns tn ::
        (clearStep env tn mode sp ++
          insertStep tn (enrich username env.now df0) mode),
       Except.ok ()) := by
    simp [uploadSteps3to6, hEB]
  rw [upload_eq_of_standards_ok username env tn schema t df0 mode sp cs
    ev2 pkc hsp hst, hsteps]
  obtain ⟨s, n, hm⟩ :=
    insertRows_mem_insertStep tn (enrich username env.now df0) mode
  exact ⟨hval, rfl, s, n, by simp [List.mem_append, hm]⟩

theorem C1_witness :
    validate_columns
      (enrich "DOMAIN\\alice" envExample.now dfExample).colNames
      envExample.sqlColumns = Except.ok () ∧
    (upload_data_to_quant_db "DOMAIN\\alice" envExample "dbo.t" dfExample
      "append" false true).2 = Except.ok () ∧
    ∃ s n, Event.insertRows s n ∈
      (upload_data_to_quant_db "DOMAIN\\alice" envExample "dbo.t" dfExample
        "append" false true).1 :=
  C1_matching_columns_proceed "DOMAIN\\alice" envExample "dbo.t" "dbo" "t"
    dfExample "append" false true [Event.warnDbo] none (by decide)
    (by decide) (by decide) (by decide)

/-- Claim C3 counterexample: a concrete upload (table absent, mode "append",
no skip_prompt, creation prompt declined) acquires a connection, fails
with CreationDeclined, and never reaches `conn.close()`: the Upload
operation does not release the connection on this failure path. -/
theorem C3_counterexample :
    Event.connect ∈ (upload_data_to_quant_db "DOMAIN\\alice" envAbsent
      "dbo.t" dfExample "append" false true).1 ∧
    (upload_data_to_quant_db "DOMAIN\\alice" envAbsent "dbo.t" dfExample
      "append" false true).2 =
      Except.error UploadError.creationDeclined ∧
    Event.closeConn ∉ (upload_data_to_quant_db "DOMAIN\\alice" envAbsent
      "dbo.t" dfExample "append" false true).1 := by
  refine ⟨by decide, by decide, by decide⟩

/-- Claim C3 amended: Drop releases its connection on every exit path (its
try/except/finally guarantees it), but Upload releases the connection
only on its successful path: a successful upload reaches `conn.close()`,
while every upload that raises after connecting returns with the
connection still open. -/
theorem C3_amended_connection_release :
    (∀ denv tn, Event.closeConn ∈ (delete_table_from_quant_db denv tn).1) ∧
    (∀ username env tn df0 mode sp cs,
      ((upload_data_to_quant_db username env tn df0 mode sp cs).2 =
          Except.ok () →
        Event.closeConn ∈
          (upload_data_to_quant_db username env tn df0 mode sp cs).1) ∧
      (∀ e, (upload_data_to_quant_db username env tn df0 mode sp cs).2 =
          Except.error e →
        Event.closeConn ∉
          (upload_data_to_quant_db username env tn df0 mode sp cs).1)) := by
  constructor
  · intro denv tn
    rcases denv with ⟨b⟩
    cases b <;> simp [delete_table_from_quant_db]
  · intro username env tn df0 mode sp cs
    refine ⟨upload_ok_closeConn username env tn df0 mode sp cs, ?_⟩
    intro e he hmem
    rcases upload_error_events username env tn df0 mode sp cs e he _ hmem
      with h1 | h1 | h1 | h1 <;> simp at h1

theorem C3_witness :
    Event.closeConn ∈ (upload_data_to_quant_db "DOMAIN\\alice" envExample
      "dbo.t" dfExample "append" false true).1 :=
  (C3_amended_connection_release.2 "DOMAIN\\alice" envExample "dbo.t"
    dfExample "append" false true).1 (by decide)

/-- Claim C4: an upload that terminates with an error (all upload errors are
validation failures: UnknownSchema, MissingRequiredColumns,
SchemaMismatch, InvalidPrimaryKey, CreationDeclined, or a malformed
table name) has issued no insert statement against the store. -/
theorem C4_no_insert_on_failure (username : String) (env : Env)
    (tn : String) (df0 : Dataset) (mode : String) (sp cs : Bool)
    (e : UploadError)
    (h : (upload_data_to_quant_db username env tn df0 mode sp cs).2 =
      Except.error e) :
    ∀ s n, Event.insertRows s n ∉
      (upload_data_to_quant_db username env tn df0 mode sp cs).1 := by
  intro s n hmem
  rcases upload_error_events username env tn df0 mode sp cs e h _ hmem with
    h1 | h1 | h1 | h1 <;> simp at h1

theorem C4_witness :
    Event.insertRows
      "INSERT INTO dbo.t (a, update_timestamp, update_user) VALUES (?, ?, ?)"
      2 ∉
    (upload_data_to_quant_db "DOMAIN\\alice" envAbsent "dbo.t" dfExample
      "append" false true).1 :=
  C4_no_insert_on_failure "DOMAIN\\alice" envAbsent "dbo.t" dfExample
    "append" false true UploadError.creationDeclined (by decide)
    "INSERT INTO dbo.t (a, update_timestamp, update_user) VALUES (?, ?, ?)"
    2

/-- Claim C5: an upload with standards checking against a governed schema whose
enriched dataset lacks at least one required column fails with
MissingRequiredColumns naming the missing columns, and a required column
is named exactly when it is absent from the dataset's column names (set
membership, not position). -/
theorem C5_missing_required_columns (username : String) (env : Env)
    (tn schema t : String) (df0 : Dataset) (mode : String) (sp : Bool)
    (required primary_key : List String)
    (hsp : pySplit tn '.' = [schema, t])
    (hgov : lookupStandard schema = some (required, primary_key))
    (hmiss : ∃ c ∈ required, c ∉ (enrich username env.now df0).colNames) :
    (upload_data_to_quant_db username env tn df0 mode sp true).2 =
      Except.error (UploadError.missingRequiredColumns schema
        (missingColumns required (enrich username env.now df0).colNames)) ∧
    ∀ c ∈ required,
      (c ∈ missingColumns required (enrich username env.now df0).colNames
        ↔ c ∉ (enrich username env.now df0).colNames) := by
  have hmc : ∀ c, c ∈ missingColumns required
      (enrich username env.now df0).colNames ↔
      (c ∈ required ∧ c ∉ (enrich username env.now df0).colNames) := by
    intro c
    unfold missingColumns
    rw [List.mem_filter]
    simp
  have hne : (missingColumns required
      (enrich username env.now df0).colNames).isEmpty = false := by
    obtain ⟨c, hc, hnc⟩ := hmiss
    rcases hls : missingColumns required
        (enrich username env.now df0).colNames with _ | ⟨x, xs⟩
    · exact absurd ((hmc c).mpr ⟨hc, hnc⟩) (by rw [hls]; simp)
    · simp
  have hst : standardsCheck true schema
      (enrich username env.now df0).colNames =
      ([], Except.error (UploadError.missingRequiredColumns schema
        (missingColumns required (enrich username env.now df0).colNames)))
      := by
    simp [standardsCheck, hgov, hne]
  have hup := upload_eq_of_standards_error username env tn schema t df0
    mode sp true [] (UploadError.missingRequiredColumns schema
      (missingColumns required (enrich username env.now df0).colNames))
    hsp hst
  exact ⟨by rw [hup], fun c hc => by rw [hmc]; tauto⟩

theorem C5_witness :
    (upload_data_to_quant_db "DOMAIN\\alice" envExample
      "pricing.day_ahead" dfPricingNoCurrency "append" false true).2 =
      Except.error (UploadError.missingRequiredColumns "pricing"
        (missingColumns
          ["datetime_he", "pricing_location", "wholesale_market",
           "market_type", "service", "price", "unit", "currency",
           "interval_width_s", "update_timestamp", "update_user"]
          (enrich "DOMAIN\\alice" envExample.now
            dfPricingNoCurrency).colNames)) ∧
    ∀ c ∈ ["datetime_he", "pricing_location", "wholesale_market",
           "market_type", "service", "price", "unit", "currency",
           "interval_width_s", "update_timestamp", "update_user"],
      (c ∈ missingColumns
          ["datetime_he", "pricing_location", "wholesale_market",
           "market_type", "service", "price", "unit", "currency",
           "interval_width_s", "update_timestamp", "update_user"]
          (enrich "DOMAIN\\alice" envExample.now
            dfPricingNoCurrency).colNames ↔
        c ∉ (enrich "DOMAIN\\alice" envExample.now
          dfPricingNoCurrency).colNames) :=
  C5_missing_required_columns "DOMAIN\\alice" envExample
    "pricing.day_ahead" "pricing" "day_ahead" dfPricingNoCurrency
    "append" false
    ["datetime_he", "pricing_location", "wholesale_market",
     "market_type", "service", "price", "unit", "currency",
     "interval_width_s", "update_timestamp", "update_user"]
    ["datetime_he", "pricing_location", "wholesale_market",
     "market_type", "service"]
    (by decide) (by decide) (by decide)

/-- Claim C7: with a non-empty primary-key list, `create_table_from_dataframe`
either (all primary-key columns present in the dataframe) executes a
single CREATE statement ending in the primary-key clause that lists
exactly those columns in the given order, or (some primary-key column
absent) raises InvalidPrimaryKey naming a missing column and issues no
statement at all. -/
theorem C7_materializer_primary_key (tn : String) (df : Dataset)
    (pk : List String) (hne : pk ≠ []) :
    ((∀ c ∈ pk, c ∈ df.colNames) →
      create_table_from_dataframe tn df (some pk) =
        ([Event.execCreate (createStmt tn df (pkClause pk)),
          Event.printCreated tn], Except.ok ())) ∧
    ((∃ c ∈ pk, c ∉ df.colNames) →
      ∃ c, c ∈ pk ∧ c ∉ df.colNames ∧
        create_table_from_dataframe tn df (some pk) =
          ([], Except.error (UploadError.invalidPrimaryKey c))) := by
  have htr : pkTruthy (some pk) = true := by
    rcases pk with _ | ⟨x, xs⟩
    · exact absurd rfl hne
    · rfl
  constructor
  · intro hall
    have hfind : pkMissing df pk = none := by
      unfold pkMissing
      rw [List.find?_eq_none]
      intro c hc
      simp [hall c hc]
    simp [create_table_from_dataframe, htr, hfind]
  · rintro ⟨c0, hc0, hnc0⟩
    rcases hf : pkMissing df pk with _ | c
    · exfalso
      unfold pkMissing at hf
      rw [List.find?_eq_none] at hf
      have := hf c0 hc0
      simp at this
      exact hnc0 this
    · have hfu : pk.find? (fun col => decide (col ∉ df.colNames)) =
          some c := hf
      have hcp := List.find?_some hfu
      have hcm := List.mem_of_find?_eq_some hfu
      refine ⟨c, hcm, by simpa using hcp, ?_⟩
      simp [create_table_from_dataframe, htr, hf]

theorem C7_witness :
    ((∀ c ∈ ["a", "update_user"],
        c ∈ (dfExample : Dataset).colNames) →
      create_table_from_dataframe "dbo.t" dfExample
          (some ["a", "update_user"]) =
        ([Event.execCreate
            (createStmt "dbo.t" dfExample (pkClause ["a", "update_user"])),
          Event.printCreated "dbo.t"], Except.ok ())) ∧
    ((∃ c ∈ ["a", "update_user"], c ∉ (dfExample : Dataset).colNames) →
      ∃ c, c ∈ ["a", "update_user"] ∧ c ∉ (dfExample : Dataset).colNames ∧
        create_table_from_dataframe "dbo.t" dfExample
            (some ["a", "update_user"]) =
          ([], Except.error (UploadError.invalidPrimaryKey c))) :=
  C7_materializer_primary_key "dbo.t" dfExample ["a", "update_user"]
    (by decide)

/-- Claim C8: the decline asymmetry.  (a) Overwrite mode against an existing
column-compatible table with the force flag unset and the overwrite
confirmation declined: no DELETE is issued and the bulk insert still
proceeds, the upload succeeding (append-like fallback).  (b) An absent
table whose creation prompt is declined (mode not "create", force flag
unset): hard failure with CreationDeclined, and neither an insert nor a
CREATE is issued. -/
theorem C8_decline_asymmetry :
    (∀ username env tn schema t df0 mode cs ev2 pkc,
      pySplit tn '.' = [schema, t] →
      standardsCheck cs schema (enrich username env.now df0).colNames
        = (ev2, Except.ok pkc) →
      (enrich username env.now df0).colNames.length =
        env.sqlColumns.length →
      (∀ i, i < (enrich username env.now df0).colNames.length →
        (enrich username env.now df0).colNames.getD i "" =
          (sqlColnames env.sqlColumns).getD i "") →
      pyLower mode = "overwrite" →
      pyLower env.overwriteAnswer ≠ "y" →
      (∀ t2, Event.execDelete t2 ∉
        (upload_data_to_quant_db username env tn df0 mode false cs).1) ∧
      (upload_data_to_quant_db username env tn df0 mode false cs).2 =
        Except.ok () ∧
      ∃ s n, Event.insertRows s n ∈
        (upload_data_to_quant_db username env tn df0 mode false cs).1) ∧
    (∀ username env tn schema t df0 mode cs ev2 pkc,
      pySplit tn '.' = [schema, t] →
      standardsCheck cs schema (enrich username env.now df0).colNames
        = (ev2, Except.ok pkc) →
      env.sqlColumns = [] →
      mode ≠ "create" →
      pyLower env.createAnswer ≠ "y" →
      (upload_data_to_quant_db username env tn df0 mode false cs).2 =
        Except.error UploadError.creationDeclined ∧
      (∀ s n, Event.insertRows s n ∉
        (upload_data_to_quant_db username env tn df0 mode false cs).1) ∧
      (∀ s, Event.execCreate s ∉
        (upload_data_to_quant_db username env tn df0 mode false cs).1)) := by
  constructor
  · intro username env tn schema t df0 mode cs ev2 pkc hsp hst hlen hmatch
      hmode hdecl
    have hOA : (pyLower env.overwriteAnswer == "y") = false := by
      rw [beq_eq_false_iff_ne]; exact hdecl
    have hclear : clearStep env tn mode false =
        [Event.promptOverwrite tn] := by
      simp [clearStep, hmode, hOA]
    have hup := upload_validate_ok_eq username env tn schema t df0 mode
      false cs ev2 pkc hsp hst hlen hmatch
    rw [hclear] at hup
    rw [hup]
    refine ⟨?_, rfl, ?_⟩
    · intro t2 hmem
      simp only [List.mem_append, List.mem_cons, List.mem_singleton]
        at hmem
      rcases hmem with hmem | hmem | hmem | hmem | hmem
      · have := standardsCheck_events cs schema
          (enrich username env.now df0).colNames _ (by rw [hst]; exact hmem)
        simp at this
      · simp at hmem
      · simp at hmem
      · simp at hmem
      · rcases insertStep_events tn (enrich username env.now df0) mode _
          hmem with ⟨s', n', hh⟩ | hh | hh | hh | ⟨n', b', hh⟩ <;>
          simp at hh
    · obtain ⟨s, n, hm⟩ :=
        insertRows_mem_insertStep tn (enrich username env.now df0) mode
      exact ⟨s, n, by simp [List.mem_append, hm]⟩
  · intro username env tn schema t df0 mode cs ev2 pkc hsp hst hE hmode
      hdecl
    have hmc : (mode == "create") = false := by
      rw [beq_eq_false_iff_ne]; exact hmode
    have hCA : (pyLower env.createAnswer == "y") = false := by
      rw [beq_eq_false_iff_ne]; exact hdecl
    have hEB : existenceBranch env tn (enrich username env.now df0) mode
        false pkc =
        ([Event.promptCreate tn],
         Except.error UploadError.creationDeclined) := by
      simp [existenceBranch, hE, hmc, hCA]
    have hsteps : uploadSteps3to6 env tn (enrich username env.now df0)
        mode false pkc =
        (Event.connect :: Event.queryColumns tn ::
          [Event.promptCreate tn],
         Except.error UploadError.creationDeclined) := by
      simp [uploadSteps3to6, hEB]
    have hup := upload_eq_of_standards_ok username env tn schema t df0
      mode false cs ev2 pkc hsp hst
    rw [hsteps] at hup
    rw [hup]
    refine ⟨rfl, ?_, ?_⟩
    · intro s n hmem
      simp only [List.mem_append, List.mem_cons, List.mem_singleton]
        at hmem
      rcases hmem with hmem | hmem | hmem | hmem
      · have := standardsCheck_events cs schema
          (enrich username env.now df0).colNames _ (by rw [hst]; exact hmem)
        simp at this
      · simp at hmem
      · simp at hmem
      · simp at hmem
    · intro s hmem
      simp only [List.mem_append, List.mem_cons, List.mem_singleton]
        at hmem
      rcases hmem with hmem | hmem | hmem | hmem
      · have := standardsCheck_events cs schema
          (enrich username env.now df0).colNames _ (by rw [hst]; exact hmem)
        simp at this
      · simp at hmem
      · simp at hmem
      · simp at hmem

theorem C8_witness :
    ((∀ t2, Event.execDelete t2 ∉
        (upload_data_to_quant_db "DOMAIN\\alice" envExample "dbo.t"
          dfExample "Overwrite" false true).1) ∧
      (upload_data_to_quant_db "DOMAIN\\alice" envExample "dbo.t"
        dfExample "Overwrite" false true).2 = Except.ok () ∧
      ∃ s n, Event.insertRows s n ∈
        (upload_data_to_quant_db "DOMAIN\\alice" envExample "dbo.t"
          dfExample "Overwrite" false true).1) ∧
    ((upload_data_to_quant_db "DOMAIN\\alice" envAbsent "dbo.t"
        dfExample "append" false true).2 =
      Except.error UploadError.creationDeclined ∧
      (∀ s n, Event.insertRows s n ∉
        (upload_data_to_quant_db "DOMAIN\\alice" envAbsent "dbo.t"
          dfExample "append" false true).1) ∧
      (∀ s, Event.execCreate s ∉
        (upload_data_to_quant_db "DOMAIN\\alice" envAbsent "dbo.t"
          dfExample "append" false true).1)) :=
  ⟨C8_decline_asymmetry.1 "DOMAIN\\alice" envExample "dbo.t" "dbo" "t"
      dfExample "Overwrite" true [Event.warnDbo] none (by decide)
      (by decide) (by decide) (by decide) (by decide) (by decide),
   C8_decline_asymmetry.2 "DOMAIN\\alice" envAbsent "dbo.t" "dbo" "t"
      dfExample "append" true [Event.warnDbo] none (by decide) (by decide)
      (by decide) (by decide) (by decide)⟩

/-- Claim C9: the mode comparisons handle letter case asymmetrically.  The
destructive clear triggers for any case variant of "overwrite" (the mode
is lower-cased before the comparison at line 171, so with the force flag
set or the prompt affirmed a DELETE is issued), whereas forcing creation
of an absent table without a prompt requires the mode string to equal
"create" exactly (line 163): with mode "create" the creation prompt is
never consulted, while the case variant "Create" falls through to the
confirmation prompt. -/
theorem C9_mode_case_asymmetry :
    (∀ env tn mode sp, pyLower mode = "overwrite" →
      (sp = true ∨ pyLower env.overwriteAnswer = "y") →
      Event.execDelete tn ∈ clearStep env tn mode sp) ∧
    (∀ env tn df pkc, env.sqlColumns = [] →
      Event.promptCreate tn ∉
        (existenceBranch env tn df "create" false pkc).1) ∧
    (∀ env tn df pkc, env.sqlColumns = [] →
      Event.promptCreate tn ∈
        (existenceBranch env tn df "Create" false pkc).1) := by
  refine ⟨?_, ?_, ?_⟩
  · intro env tn mode sp hmode hok
    rcases hok with rfl | hy
    · simp [clearStep, hmode]
    · have hya : (pyLower env.overwriteAnswer == "y") = true := by
        simp [hy]
      cases sp
      · simp [clearStep, hmode, hya]
      · simp [clearStep, hmode]
  · intro env tn df pkc hE hmem
    have h1 : env.sqlColumns.length < 1 := by rw [hE]; simp
    unfold existenceBranch at hmem
    rw [if_pos h1, if_pos (by simp)] at hmem
    rcases create_cases tn df pkc with ⟨c, hc⟩ | ⟨s, hc⟩ <;>
      rw [hc] at hmem <;> simp at hmem
  · intro env tn df pkc hE
    have h1 : env.sqlColumns.length < 1 := by rw [hE]; simp
    unfold existenceBranch
    rw [if_pos h1, if_neg (by decide)]
    split
    · simp
    · simp

theorem C9_witness :
    Event.execDelete "dbo.t" ∈
      clearStep envExample "dbo.t" "OVERWRITE" true ∧
    Event.promptCreate "dbo.t" ∉
      (existenceBranch envAbsent "dbo.t" dfExample "create" false none).1 ∧
    Event.promptCreate "dbo.t" ∈
      (existenceBranch envAbsent "dbo.t" dfExample "Create" false none).1 :=
  ⟨C9_mode_case_asymmetry.1 envExample "dbo.t" "OVERWRITE" true
      (by decide) (Or.inl rfl),
   C9_mode_case_asymmetry.2.1 envAbsent "dbo.t" dfExample none rfl,
   C9_mode_case_asymmetry.2.2 envAbsent "dbo.t" dfExample none rfl⟩

/-- Claim C10: with standards checking off, or targeting the escape-hatch
schema "dbo", the Materializer is invoked with
`primary_key_columns = None`, so any CREATE statement the upload issues
is the one without a primary-key clause, whatever the dataset's
columns. -/
theorem C10_no_primary_key_unchecked_or_dbo (username : String)
    (env : Env) (tn schema t : String) (df0 : Dataset) (mode : String)
    (sp cs : Bool)
    (hsp : pySplit tn '.' = [schema, t])
    (hcs : cs = false ∨ schema = "dbo") :
    ∀ s, Event.execCreate s ∈
        (upload_data_to_quant_db username env tn df0 mode sp cs).1 →
      s = createStmt tn (enrich username env.now df0) "" := by
  intro s hmem
  have hstd : ∃ ev2, standardsCheck cs schema
      (enrich username env.now df0).colNames = (ev2, Except.ok none) := by
    rcases hcs with rfl | rfl
    · exact ⟨[], rfl⟩
    · cases cs
      · exact ⟨[], rfl⟩
      · exact ⟨[Event.warnDbo], rfl⟩
  obtain ⟨ev2, hst⟩ := hstd
  rw [upload_eq_of_standards_ok username env tn schema t df0 mode sp cs
    ev2 none hsp hst] at hmem
  simp only [List.mem_append] at hmem
  rcases hmem with h | h
  · have := standardsCheck_events cs schema
      (enrich username env.now df0).colNames _ (by rw [hst]; exact h)
    simp at this
  · exact existenceBranch_execCreate_none env tn _ mode sp s
      (steps3to6_execCreate_mem env tn _ mode sp none s h)

theorem C10_witness :
    "CREATE TABLE dbo.t ([a] BIGINT, [update_timestamp] DATETIME, [update_user] NVARCHAR(100))"
      = createStmt "dbo.t"
        (enrich "DOMAIN\\alice" envCreateYes.now dfExample) "" :=
  C10_no_primary_key_unchecked_or_dbo "DOMAIN\\alice" envCreateYes
    "dbo.t" "dbo" "t" dfExample "append" false true (by decide)
    (Or.inr rfl)
    "CREATE TABLE dbo.t ([a] BIGINT, [update_timestamp] DATETIME, [update_user] NVARCHAR(100))"
    (by decide)

end FlpDb
